import Mathlib

/-!
Verification of the role-gated data-access workflow of the
neon-azure-secure-ai-agent-data-access repository.

The repository consists of three Python scripts:
  - agent-data-acesss-scenarios_limited.py: role-gated multi-agent workflow
    (query tool selection, API gating, presentation instruction),
  - agent-data-acesss-scenario_one.py: a simpler variant of the same tools,
  - neondb_setup.py: a seeding script for the finance table.

This file shallowly embeds the data model and decision logic of those
scripts: pure tool-selection logic becomes Lean functions over role lists,
the database interaction is modelled as an explicit table state with an
Except-valued outcome for connect/execute/fetch, and HTTP responses become
explicit records carrying a status code and a parsed payload.
-/

/-- Role tags are plain strings in the source; membership is tested by
string containment in a list of roles. -/
abbrev Roles := List String

/-- Names of the three finance query tools registered with the agent
service; the policy selector in agent-data-acesss-scenarios_limited.py
(lines 149-157) picks one of these. -/
inductive QueryTool where
  | query_limited_finance_data
  | query_row_level_finance_data
  | query_finance_data
deriving DecidableEq, Repr

/-- Embeds the query-tool branch of the communication flow (lines 149-157):
if restricted_db is in roles the limited tool is chosen, else if
row_restricted is in roles the row-level tool, else the full tool. -/
def selectQueryTool (roles : Roles) : QueryTool :=
  if "restricted_db" ∈ roles then .query_limited_finance_data
  else if "row_restricted" ∈ roles then .query_row_level_finance_data
  else .query_finance_data

/-- Embeds the query_task string chosen alongside the tool in the same
branch (lines 149-157). -/
def selectQueryTask (roles : Roles) : String :=
  if "restricted_db" ∈ roles then "Query limited finance data"
  else if "row_restricted" ∈ roles then "Query row level restricted finance data"
  else "Query full finance data"

/-- Embeds the present_instruction branch (lines 176-179): with mask_data
in roles the presenter is told to mask revenue and profit, otherwise to
produce a full report. -/
def presentInstruction (roles : Roles) : String :=
  if "mask_data" ∈ roles then
    "Summarize the financial data but mask revenue and profit."
  else
    "Summarize the collected financial data into a clean report."

/-- Content of the internet-search message posted first in the session
(line 144 of the limited scenario). -/
def searchTaskMsg : String := "Search for IBM\x27s Q4 financial results from the web."

/-- Content of the stock-quote fetch message posted only when
limited_api_access is absent (line 171 of the limited scenario). -/
def fetchTaskMsg : String := "Fetch IBM\x27s latest stock data from Alpha Vantage."

/-- Embeds the sequence of user messages posted to the thread during the
communication flow of agent-data-acesss-scenarios_limited.py (lines
141-185): the search task, the role-selected query task, the stock fetch
task unless limited_api_access is in roles, and the presenter instruction. -/
def sessionTasks (roles : Roles) : List String :=
  [searchTaskMsg, selectQueryTask roles ++ " from the Neon database."]
    ++ (if "limited_api_access" ∈ roles then [] else [fetchTaskMsg])
    ++ [presentInstruction roles]

/-- A row of the finance table created by neondb_setup.py:
finance(id SERIAL, company TEXT, revenue REAL, profit REAL,
stock_price REAL, user_role TEXT). Numeric values are modelled as exact
rationals. -/
structure FinanceRecord where
  id : Nat
  company : String
  revenue : ℚ
  profit : ℚ
  stock_price : ℚ
  user_role : String
deriving DecidableEq, Repr

/-- Database state visible to the scripts: the finance table, present
(with its rows in insertion order) or absent. -/
structure DbState where
  finance : Option (List FinanceRecord)
deriving DecidableEq, Repr

/-- Renders a rational as numerator/denominator text; stands in for the
textual form of a REAL column value inside str(row). -/
def renderRat (q : ℚ) : String := toString q.num ++ "/" ++ toString q.den

/-- Renders one fetched row, standing in for Python str(row) on a
RealDictRow of all six columns; no claim depends on the exact text. -/
def renderRow (r : FinanceRecord) : String :=
  "RealDictRow([(id, " ++ toString r.id ++ "), (company, " ++ r.company ++
    "), (revenue, " ++ renderRat r.revenue ++ "), (profit, " ++ renderRat r.profit ++
    "), (stock_price, " ++ renderRat r.stock_price ++ "), (user_role, " ++
    r.user_role ++ ")])"

/-- Renders one row of the limited projection SELECT company, stock_price. -/
def renderLimitedRow (r : FinanceRecord) : String :=
  "RealDictRow([(company, " ++ r.company ++ "), (stock_price, " ++
    renderRat r.stock_price ++ ")])"

/-- Marker character prefixed to every error string the tools return, so
success and failure share the same text channel. -/
def errorMarker : String := "❌"

/-- Outcome of the connect/execute/fetch sequence against the finance
table: either the fetched full-table rows or the text of the exception
psycopg2 raised. -/
abbrev FetchOutcome := Except String (List FinanceRecord)

/-- Embeds query_finance_data of agent-data-acesss-scenarios_limited.py
(lines 30-40): SELECT * FROM finance, joined row renderings, a fixed
message when no rows, and on any exception an error string instead of a
raise. The function is total: every outcome, including every exception,
yields a string. -/
def query_finance_data (outcome : FetchOutcome) : String :=
  match outcome with
  | .error e => "❌ Error querying Neon: " ++ e
  | .ok rows =>
      if rows.isEmpty then "No finance data found."
      else String.intercalate "\n" (rows.map renderRow)

/-- Embeds query_limited_finance_data (lines 42-52): SELECT company,
stock_price FROM finance; the projection of the SQL is applied to the
table rows. -/
def query_limited_finance_data (outcome : FetchOutcome) : String :=
  match outcome with
  | .error e => "❌ Error querying Neon: " ++ e
  | .ok rows =>
      if rows.isEmpty then "No limited finance data found."
      else String.intercalate "\n" (rows.map renderLimitedRow)

/-- Embeds query_row_level_finance_data (lines 54-64): SELECT * FROM
finance WHERE user_role = restricted; the WHERE predicate is applied as a
filter on the table rows. -/
def query_row_level_finance_data (outcome : FetchOutcome) : String :=
  match outcome with
  | .error e => "❌ Error querying Neon: " ++ e
  | .ok rows =>
      let rs := rows.filter (fun r => r.user_role = "restricted")
      if rs.isEmpty then "No row level restricted data found."
      else String.intercalate "\n" (rs.map renderRow)

/-- Embeds query_finance_data of agent-data-acesss-scenario_one.py (lines
23-35): SELECT * FROM finance WHERE company = IBM, with its own empty
message and its own error prefix text. -/
def scenario_one_query_finance_data (outcome : FetchOutcome) : String :=
  match outcome with
  | .error e => "❌ Error querying Neon DB: " ++ e
  | .ok rows =>
      let rs := rows.filter (fun r => r.company = "IBM")
      if rs.isEmpty then "No IBM financial records found in the database."
      else String.intercalate "\n" (rs.map renderRow)

/-- The 10 records inserted by neondb_setup.py (lines 33-44), with the ids
1..10 the freshly recreated SERIAL column assigns in insertion order. -/
def financial_data : List FinanceRecord :=
  [⟨1, "IBM", 75000, 5000, (145.32 : ℚ), "restricted"⟩,
   ⟨2, "Apple", 394000, 99900, (179.95 : ℚ), "restricted"⟩,
   ⟨3, "Microsoft", 211000, 72000, (314.10 : ℚ), "restricted"⟩,
   ⟨4, "Google", 280000, 76000, (2801.12 : ℚ), "restricted"⟩,
   ⟨5, "Amazon", 502000, 33000, (142.92 : ℚ), "restricted"⟩,
   ⟨6, "Meta", 117000, 39000, (302.56 : ℚ), "restricted"⟩,
   ⟨7, "Tesla", 123000, 15500, (199.35 : ℚ), "public"⟩,
   ⟨8, "Netflix", 35000, 5400, (412.75 : ℚ), "public"⟩,
   ⟨9, "Nvidia", 26000, 9600, (450.99 : ℚ), "public"⟩,
   ⟨10, "Samsung", 244000, 41000, (70.10 : ℚ), "public"⟩]

/-- Embeds neondb_setup.py (lines 18-53): DROP TABLE IF EXISTS finance,
CREATE TABLE, INSERT the 10 sample records, COMMIT. The drop discards any
previous finance table, so the resulting state does not depend on the
initial one. -/
def seedDatabase (_db : DbState) : DbState := ⟨some financial_data⟩

/-- Models the connect/execute/fetch sequence for SELECT * FROM finance on
a database state: the rows when the table exists, a relation-missing
exception otherwise. -/
def selectAllFinance (db : DbState) : FetchOutcome :=
  match db.finance with
  | some rows => .ok rows
  | none => .error "relation \x22finance\x22 does not exist"

/-- A user entry of the role file user_roles.yaml: a username and its
role-tag list, one element of the top-level users sequence. -/
structure UserEntry where
  username : String
  roles : List String
deriving DecidableEq, Repr

/-- Embeds get_user_roles of agent-data-acesss-scenarios_limited.py (lines
93-99), applied to the parsed users sequence of the role file: scan the
entries in order, return the roles of the first entry whose username
matches, and an empty list when none matches. -/
def get_user_roles (users : List UserEntry) (username : String) : List String :=
  match users with
  | [] => []
  | u :: rest => if u.username = username then u.roles else get_user_roles rest username

/-- One organic search hit as the scripts consume it: a title and a link. -/
structure SearchHit where
  title : String
  link : String
deriving DecidableEq, Repr

/-- An HTTP response from the Serper search API as the scripts consume it:
the status code, the parsed organic array (empty when the key is missing,
as dict.get with default gives), and the raw body text. -/
structure SearchResponse where
  status_code : Nat
  organic : List SearchHit
  text : String
deriving DecidableEq, Repr

/-- Embeds search_ibm_news of agent-data-acesss-scenarios_limited.py
(lines 75-87): on status 200, join the first three organic hits as
title - link lines; otherwise an error string. -/
def search_ibm_news (resp : SearchResponse) : String :=
  if resp.status_code = 200 then
    String.intercalate "\n" ((resp.organic.take 3).map (fun r => r.title ++ " - " ++ r.link))
  else "❌ Serper API error: " ++ resp.text

/-- Embeds search_ibm_news of agent-data-acesss-scenario_one.py (lines
49-64): same shape, but an empty organic array yields a descriptive
no-results message. -/
def scenario_one_search_ibm_news (resp : SearchResponse) : String :=
  if resp.status_code ≠ 200 then "❌ Serper search error: " ++ resp.text
  else if resp.organic.isEmpty then "No relevant search results found."
  else String.intercalate "\n" ((resp.organic.take 3).map (fun r => r.title ++ " - " ++ r.link))

/-- The query task is always one of the three strings of the branch. -/
theorem selectQueryTask_cases (roles : Roles) :
    selectQueryTask roles = "Query limited finance data" ∨
    selectQueryTask roles = "Query row level restricted finance data" ∨
    selectQueryTask roles = "Query full finance data" := by
  unfold selectQueryTask
  split_ifs <;> simp

/-- The presenter instruction is always one of its two strings. -/
theorem presentInstruction_cases (roles : Roles) :
    presentInstruction roles = "Summarize the financial data but mask revenue and profit." ∨
    presentInstruction roles = "Summarize the collected financial data into a clean report." := by
  unfold presentInstruction
  split_ifs <;> simp

/-- C1: for every role set containing restricted_db, the policy selector
chooses the limited-column query tool and never the full or row-restricted
tool, including when row_restricted is also present. -/
theorem restricted_db_selects_limited_tool (roles : Roles)
    (h : "restricted_db" ∈ roles) :
    selectQueryTool roles = .query_limited_finance_data ∧
    selectQueryTool roles ≠ .query_finance_data ∧
    selectQueryTool roles ≠ .query_row_level_finance_data := by
  unfold selectQueryTool
  simp [h]

/-- C1 witness: a role set holding both restricted_db and row_restricted
still gets the limited-column tool. -/
theorem restricted_db_selects_limited_tool_witness :
    selectQueryTool ["restricted_db", "row_restricted"] = .query_limited_finance_data ∧
    selectQueryTool ["restricted_db", "row_restricted"] ≠ .query_finance_data ∧
    selectQueryTool ["restricted_db", "row_restricted"] ≠ .query_row_level_finance_data :=
  restricted_db_selects_limited_tool ["restricted_db", "row_restricted"] (by decide)

/-- C4: for every role set containing row_restricted but not restricted_db,
the policy selector chooses the row-filtered query tool. -/
theorem row_restricted_selects_row_tool (roles : Roles)
    (h1 : "row_restricted" ∈ roles) (h2 : "restricted_db" ∉ roles) :
    selectQueryTool roles = .query_row_level_finance_data := by
  unfold selectQueryTool
  simp [h1, h2]

/-- C4 witness: the singleton role set with row_restricted gets the
row-filtered tool. -/
theorem row_restricted_selects_row_tool_witness :
    selectQueryTool ["row_restricted"] = .query_row_level_finance_data :=
  row_restricted_selects_row_tool ["row_restricted"] (by decide) (by decide)

/-- C5: for every role set containing neither restricted_db nor
row_restricted, the policy selector chooses the unrestricted full-table
query tool. -/
theorem no_db_tag_selects_full_tool (roles : Roles)
    (h1 : "restricted_db" ∉ roles) (h2 : "row_restricted" ∉ roles) :
    selectQueryTool roles = .query_finance_data := by
  unfold selectQueryTool
  simp [h1, h2]

/-- C5 witness: the empty role set gets the full-table query tool. -/
theorem no_db_tag_selects_full_tool_witness :
    selectQueryTool [] = .query_finance_data :=
  no_db_tag_selects_full_tool [] (by decide) (by decide)

/-- C3: with mask_data in the role set, the presentation instruction is the
masked-summary text; without it, the full-summary text. -/
theorem mask_data_selects_masked_instruction (roles : Roles) :
    ("mask_data" ∈ roles →
      presentInstruction roles = "Summarize the financial data but mask revenue and profit.") ∧
    ("mask_data" ∉ roles →
      presentInstruction roles = "Summarize the collected financial data into a clean report.") := by
  unfold presentInstruction
  constructor
  · intro h; simp [h]
  · intro h; simp [h]

/-- C3 witness: a role set with mask_data gets the masked text and the
empty role set gets the full-summary text. -/
theorem mask_data_selects_masked_instruction_witness :
    presentInstruction ["mask_data"] = "Summarize the financial data but mask revenue and profit." ∧
    presentInstruction [] = "Summarize the collected financial data into a clean report." :=
  ⟨(mask_data_selects_masked_instruction ["mask_data"]).1 (by decide),
   (mask_data_selects_masked_instruction []).2 (by decide)⟩

/-- C2: the stock-quote fetch task appears in the session task list if and
only if the role set does not contain limited_api_access; in particular
the example role set restricted_db, mask_data does include it. -/
theorem fetch_task_iff_not_limited_api (roles : Roles) :
    (fetchTaskMsg ∈ sessionTasks roles ↔ "limited_api_access" ∉ roles) ∧
    fetchTaskMsg ∈ sessionTasks ["restricted_db", "mask_data"] := by
  refine ⟨?_, by decide⟩
  by_cases h : "limited_api_access" ∈ roles
  · simp only [sessionTasks, if_pos h]
    simp only [h, not_true_eq_false, iff_false, List.append_nil]
    intro hmem
    rcases selectQueryTask_cases roles with hq | hq | hq <;>
      rcases presentInstruction_cases roles with hp | hp <;>
        simp [hq, hp, searchTaskMsg, fetchTaskMsg] at hmem
  · simp [sessionTasks, if_neg h, h]

/-- C6: each finance query tool is total over every fetch outcome by
construction, and on every exception it returns the error string with the
exception text appended to the marker-prefixed prefix, so success and
failure share the same text channel. -/
theorem query_tools_error_marker (e : String) :
    query_finance_data (.error e) = errorMarker ++ " Error querying Neon: " ++ e ∧
    query_limited_finance_data (.error e) = errorMarker ++ " Error querying Neon: " ++ e ∧
    query_row_level_finance_data (.error e) = errorMarker ++ " Error querying Neon: " ++ e ∧
    scenario_one_query_finance_data (.error e) = errorMarker ++ " Error querying Neon DB: " ++ e := by
  have h1 : "❌ Error querying Neon: " = errorMarker ++ " Error querying Neon: " := by decide
  have h2 : "❌ Error querying Neon DB: " = errorMarker ++ " Error querying Neon DB: " := by decide
  refine ⟨?_, ?_, ?_, ?_⟩
  · show "❌ Error querying Neon: " ++ e = _
    rw [h1]
  · show "❌ Error querying Neon: " ++ e = _
    rw [h1]
  · show "❌ Error querying Neon: " ++ e = _
    rw [h1]
  · show "❌ Error querying Neon DB: " ++ e = _
    rw [h2]

/-- C7: from every initial database state, seeding via neondb_setup.py and
then fetching with the full-table query yields exactly the 10 inserted
records unmodified, and the full-table query tool formats exactly those
rows. -/
theorem seed_then_full_query_roundtrip (db : DbState) :
    selectAllFinance (seedDatabase db) = .ok financial_data ∧
    financial_data.length = 10 ∧
    query_finance_data (selectAllFinance (seedDatabase db)) =
      String.intercalate "\n" (financial_data.map renderRow) := by
  refine ⟨rfl, rfl, ?_⟩
  show query_finance_data (.ok financial_data) = _
  simp [query_finance_data, financial_data]

/-- C8: get_user_roles scans the users sequence of the role file and
returns the tag collection of a matching entry, and an empty collection
for every username with no matching entry. -/
theorem get_user_roles_spec (users : List UserEntry) (name : String) :
    ((∀ u ∈ users, u.username ≠ name) → get_user_roles users name = []) ∧
    ((∃ u ∈ users, u.username = name) →
      ∃ u ∈ users, u.username = name ∧ get_user_roles users name = u.roles) := by
  induction users with
  | nil => simp [get_user_roles]
  | cons u rest ih =>
    constructor
    · intro h
      have hu : u.username ≠ name := h u (by simp)
      simp only [get_user_roles, if_neg hu]
      exact ih.1 (fun x hx => h x (by simp [hx]))
    · intro h
      by_cases hc : u.username = name
      · exact ⟨u, by simp, hc, by simp [get_user_roles, hc]⟩
      · obtain ⟨v, hv, hvn⟩ := h
        rcases List.mem_cons.mp hv with rfl | hv2
        · exact absurd hvn hc
        · obtain ⟨w, hw, hwn, hwr⟩ := ih.2 ⟨v, hv2, hvn⟩
          exact ⟨w, List.mem_cons_of_mem _ hw, hwn, by simp [get_user_roles, hc, hwr]⟩

/-- C8 witness: on a concrete one-entry users sequence, a missing username
yields the empty collection and the present username yields its roles. -/
theorem get_user_roles_spec_witness :
    get_user_roles [⟨"user_a", ["restricted_db"]⟩] "nobody" = [] ∧
    (∃ u ∈ [UserEntry.mk "user_a" ["restricted_db"]], u.username = "user_a" ∧
      get_user_roles [⟨"user_a", ["restricted_db"]⟩] "user_a" = u.roles) :=
  ⟨(get_user_roles_spec [⟨"user_a", ["restricted_db"]⟩] "nobody").1 (by decide),
   (get_user_roles_spec [⟨"user_a", ["restricted_db"]⟩] "user_a").2
     ⟨⟨"user_a", ["restricted_db"]⟩, by simp⟩⟩

/-- C10: when the users sequence holds several entries with the same
username, get_user_roles returns the roles of the first matching entry in
sequence order and ignores every later entry (the tail after the first
match is arbitrary). -/
theorem get_user_roles_first_match (pre : List UserEntry) (e : UserEntry)
    (post : List UserEntry) (name : String)
    (hpre : ∀ x ∈ pre, x.username ≠ name) (he : e.username = name) :
    get_user_roles (pre ++ e :: post) name = e.roles := by
  induction pre with
  | nil => simp [get_user_roles, he]
  | cons u rest ih =>
    have hu : u.username ≠ name := hpre u (by simp)
    simp only [List.cons_append, get_user_roles, if_neg hu]
    exact ih (fun x hx => hpre x (by simp [hx]))

/-- C10 witness: with two entries for user_b, the roles of the first entry
are returned and the second entry is ignored. -/
theorem get_user_roles_first_match_witness :
    get_user_roles [⟨"user_b", ["restricted_db", "mask_data"]⟩,
      ⟨"user_b", ["row_restricted"]⟩] "user_b" = ["restricted_db", "mask_data"] :=
  get_user_roles_first_match [] ⟨"user_b", ["restricted_db", "mask_data"]⟩
    [⟨"user_b", ["row_restricted"]⟩] "user_b" (by simp) (by decide)

/-- C9: on a 200 response with an empty or missing organic array, the
limited-scenario search_ibm_news returns the empty string while the
scenario_one variant returns a descriptive no-results message, so the two
variants diverge on a successful empty result set. -/
theorem empty_organic_results_divergence (t : String) :
    search_ibm_news ⟨200, [], t⟩ = "" ∧
    scenario_one_search_ibm_news ⟨200, [], t⟩ = "No relevant search results found." ∧
    search_ibm_news ⟨200, [], t⟩ ≠ scenario_one_search_ibm_news ⟨200, [], t⟩ := by
  have h1 : search_ibm_news ⟨200, [], t⟩ = "" := rfl
  have h2 : scenario_one_search_ibm_news ⟨200, [], t⟩ = "No relevant search results found." := rfl
  refine ⟨h1, h2, ?_⟩
  rw [h1, h2]
  decide
